import Mathlib

/-!
Verification of the query-building, pagination/filtering and record-enrichment
layer of an administrative REST gateway (accounts and characters repositories).

The JavaScript source is embedded shallowly:

* JS numbers that can be `NaN` are modelled by `JsNum`;
* the platform's `parseInt(-, 10)`, `Date` parsing of `"YYYY-MM-DD"` strings and
  `Date.prototype.toISOString` are modelled by executable Lean functions over
  the proleptic Gregorian calendar (`jsParseInt`, `parseTimestamp`,
  `jsToISOString`);
* SQL execution of the generated `WHERE`/`ORDER BY`/`LIMIT`/`OFFSET` queries is
  modelled by filtering, sorting and slicing an explicit list of rows.
-/

/-- A JavaScript number that is either `NaN` or an integer.  The code under
verification only ever produces integral numbers (or `NaN`) on these paths. -/
inductive JsNum where
  | nan
  | int (n : Int)
deriving DecidableEq, Repr

/-- JS truthiness of a number-or-null: `null`, `0` and `NaN` are falsy. -/
def jsNumTruthy : Option JsNum → Bool
  | none => false
  | some JsNum.nan => false
  | some (JsNum.int n) => n != 0

/-- Whitespace skipped by JS `parseInt`. -/
def jsStrWhitespace (c : Char) : Bool :=
  c == ' ' || c == '\t' || c == '\n' || c == '\r' || c == '\x0b' || c == '\x0c'

/-- Numeric value of a decimal digit character. -/
def digitVal (c : Char) : Nat := c.toNat - 48

/-- The leading run of decimal digits of a character list. -/
def leadingDigits (l : List Char) : List Char := l.takeWhile Char.isDigit

/-- Decimal value of a digit list (most significant first). -/
def digitsToNat (l : List Char) : Nat := l.foldl (fun a c => a * 10 + digitVal c) 0

/-- Model of JS `parseInt(s, 10)`: skip whitespace, optional sign, then the
leading run of decimal digits; `NaN` when no digit follows. -/
def jsParseInt (s : String) : JsNum :=
  let l := s.data.dropWhile jsStrWhitespace
  match l with
  | '-' :: rest =>
      let ds := leadingDigits rest
      if ds.isEmpty then JsNum.nan else JsNum.int (-(digitsToNat ds : Int))
  | '+' :: rest =>
      let ds := leadingDigits rest
      if ds.isEmpty then JsNum.nan else JsNum.int (digitsToNat ds)
  | _ =>
      let ds := leadingDigits l
      if ds.isEmpty then JsNum.nan else JsNum.int (digitsToNat ds)

/-- Proleptic Gregorian leap-year test (as used by JS `Date`). -/
def isLeap (y : Nat) : Bool := (y % 4 == 0 && y % 100 != 0) || y % 400 == 0

/-- Number of days in year `y`. -/
def daysInYear (y : Nat) : Nat := if isLeap y then 366 else 365

/-- Month lengths (January first) for a leap/non-leap year. -/
def monthLens (leap : Bool) : List Nat :=
  [31, if leap then 29 else 28, 31, 30, 31, 30, 31, 31, 30, 31, 30, 31]

/-- Days from 0000-01-01 to the start of year `y` in the proleptic Gregorian
calendar: 365 per year plus one per leap year before `y`. -/
def daysSinceYear0 (y : Nat) : Nat :=
  365 * y + (y + 3) / 4 - (y + 99) / 100 + (y + 399) / 400

/-- Resolve a day offset from the start of year `y` to the containing year and
the day-of-year inside it (structurally recursive on a fuel bound). -/
def yearFromDaysAux : Nat → Nat → Nat → Nat × Nat
  | 0, y, d => (y, d)
  | fuel + 1, y, d =>
      if d < daysInYear y then (y, d) else yearFromDaysAux fuel (y + 1) (d - daysInYear y)

/-- Resolve a day offset `d` from the start of year `y` to the containing year
and the day-of-year inside it. -/
def yearFromDays (y d : Nat) : Nat × Nat := yearFromDaysAux (d + 1) y d

/-- Resolve a day-of-year against a list of month lengths, returning the
(1-based) month and the 0-based day inside it. -/
def monthFromDoy : List Nat → Nat → Nat → Nat × Nat
  | [], m, d => (m, d)
  | len :: rest, m, d => if d < len then (m, d) else monthFromDoy rest (m + 1) (d - len)

/-- The decimal digit character for `n % 10`. -/
def digitChar (n : Nat) : Char := Char.ofNat (48 + n % 10)

/-- Two-digit zero-padded decimal rendering (for values below 100). -/
def pad2 (n : Nat) : String := ⟨[digitChar (n / 10), digitChar n]⟩

/-- Four-digit zero-padded decimal rendering (for values below 10000). -/
def pad4 (n : Nat) : String :=
  ⟨[digitChar (n / 1000), digitChar (n / 100), digitChar (n / 10), digitChar n]⟩

/-- Model of JS `new Date(t * 1000).toISOString()` for a nonnegative Unix
timestamp `t` in seconds (as produced for the derived date fields; the
millisecond part is always `000`). -/
def jsToISOString (t : Nat) : String :=
  let days := t / 86400
  let secs := t % 86400
  let yd := yearFromDays 1970 days
  let md := monthFromDoy (monthLens (isLeap yd.1)) 1 yd.2
  pad4 yd.1 ++ "-" ++ pad2 md.1 ++ "-" ++ pad2 (md.2 + 1) ++ "T" ++
    pad2 (secs / 3600) ++ ":" ++ pad2 (secs % 3600 / 60) ++ ":" ++ pad2 (secs % 60) ++
    ".000Z"

/-- Structural validity check for an ISO-8601 UTC timestamp of the exact shape
`YYYY-MM-DDTHH:MM:SS.mmmZ` with in-range month, day, hour, minute and second. -/
def isValidISO8601UTC (s : String) : Bool :=
  match s.data with
  | [y1, y2, y3, y4, a1, m1, m2, a2, d1, d2, a3, h1, h2, a4, n1, n2, a5, s1, s2, a6, p1, p2, p3, a7] =>
      y1.isDigit && y2.isDigit && y3.isDigit && y4.isDigit && a1 == '-' &&
      m1.isDigit && m2.isDigit && a2 == '-' && d1.isDigit && d2.isDigit && a3 == 'T' &&
      h1.isDigit && h2.isDigit && a4 == ':' && n1.isDigit && n2.isDigit && a5 == ':' &&
      s1.isDigit && s2.isDigit && a6 == '.' && p1.isDigit && p2.isDigit && p3.isDigit &&
      a7 == 'Z' &&
      (let mo := digitVal m1 * 10 + digitVal m2
       let da := digitVal d1 * 10 + digitVal d2
       let ho := digitVal h1 * 10 + digitVal h2
       let mi := digitVal n1 * 10 + digitVal n2
       let se := digitVal s1 * 10 + digitVal s2
       decide (1 ≤ mo ∧ mo ≤ 12 ∧ 1 ≤ da ∧ da ≤ 31 ∧ ho ≤ 23 ∧ mi ≤ 59 ∧ se ≤ 59))
  | _ => false

theorem daysInYear_ge (y : Nat) : 365 ≤ daysInYear y := by
  simp only [daysInYear]
  split <;> omega

theorem daysInYear_le (y : Nat) : daysInYear y ≤ 366 := by
  simp only [daysInYear]
  split <;> omega

theorem isLeap_iff (y : Nat) :
    isLeap y = true ↔ ((y % 4 = 0 ∧ y % 100 ≠ 0) ∨ y % 400 = 0) := by
  simp [isLeap]

set_option maxHeartbeats 2000000 in
theorem daysSinceYear0_succ (y : Nat) :
    daysSinceYear0 (y + 1) = daysSinceYear0 y + daysInYear y := by
  have h := isLeap_iff y
  simp only [daysSinceYear0, daysInYear]
  split
  · rename_i hl
    rw [h] at hl
    clear h
    omega
  · rename_i hl
    rw [h] at hl
    clear h
    omega

theorem daysSinceYear0_mono : ∀ {a b : Nat}, a ≤ b → daysSinceYear0 a ≤ daysSinceYear0 b := by
  intro a b h
  induction b with
  | zero => simp_all
  | succ n ih =>
    rcases Nat.lt_or_ge a (n + 1) with hlt | hge
    · have h1 := ih (by omega)
      have hs := daysSinceYear0_succ n
      have h2 := daysInYear_ge n
      omega
    · have : a = n + 1 := by omega
      subst this
      exact Nat.le_refl _

theorem yearFromDaysAux_spec : ∀ (fuel y d : Nat), d < fuel →
    y ≤ (yearFromDaysAux fuel y d).1 ∧
    daysSinceYear0 (yearFromDaysAux fuel y d).1 + (yearFromDaysAux fuel y d).2
      = daysSinceYear0 y + d ∧
    (yearFromDaysAux fuel y d).2 < daysInYear (yearFromDaysAux fuel y d).1 := by
  intro fuel
  induction fuel with
  | zero => intro y d h; omega
  | succ n ih =>
    intro y d h
    simp only [yearFromDaysAux]
    split
    · exact ⟨Nat.le_refl _, rfl, by assumption⟩
    · rename_i hge
      have h365 : 365 ≤ daysInYear y := daysInYear_ge y
      have hrec := ih (y + 1) (d - daysInYear y) (by omega)
      have hstep := daysSinceYear0_succ y
      exact ⟨by omega, by omega, hrec.2.2⟩

theorem yearFromDays_spec (d y : Nat) :
    y ≤ (yearFromDays y d).1 ∧
    daysSinceYear0 (yearFromDays y d).1 + (yearFromDays y d).2 = daysSinceYear0 y + d ∧
    (yearFromDays y d).2 < daysInYear (yearFromDays y d).1 :=
  yearFromDaysAux_spec (d + 1) y d (by omega)

set_option maxRecDepth 8000 in
set_option maxHeartbeats 2000000 in
theorem monthFromDoy_ranges : ∀ doy : Nat, doy < 366 →
    (1 ≤ (monthFromDoy (monthLens true) 1 doy).1 ∧
      (monthFromDoy (monthLens true) 1 doy).1 ≤ 12 ∧
      (monthFromDoy (monthLens true) 1 doy).2 < 31) ∧
    (doy < 365 →
      1 ≤ (monthFromDoy (monthLens false) 1 doy).1 ∧
      (monthFromDoy (monthLens false) 1 doy).1 ≤ 12 ∧
      (monthFromDoy (monthLens false) 1 doy).2 < 31) := by
  decide

theorem digitChar_isDigit (n : Nat) : (digitChar n).isDigit = true := by
  simp only [digitChar]
  have h : n % 10 < 10 := Nat.mod_lt _ (by omega)
  generalize n % 10 = k at h ⊢
  interval_cases k <;> decide

theorem digitVal_digitChar (n : Nat) : digitVal (digitChar n) = n % 10 := by
  simp only [digitChar]
  have h : n % 10 < 10 := Nat.mod_lt _ (by omega)
  generalize n % 10 = k at h ⊢
  interval_cases k <;> decide

theorem isValidISO8601UTC_build (Y MO DA HO MI SE : Nat)
    (_hY : Y ≤ 9999) (hmo1 : 1 ≤ MO) (hmo2 : MO ≤ 12) (hda1 : 1 ≤ DA) (hda2 : DA ≤ 31)
    (hho : HO ≤ 23) (hmi : MI ≤ 59) (hse : SE ≤ 59) :
    isValidISO8601UTC (pad4 Y ++ "-" ++ pad2 MO ++ "-" ++ pad2 DA ++ "T" ++ pad2 HO ++ ":" ++
      pad2 MI ++ ":" ++ pad2 SE ++ ".000Z") = true := by
  show isValidISO8601UTC ⟨[digitChar (Y / 1000), digitChar (Y / 100), digitChar (Y / 10),
    digitChar Y, '-', digitChar (MO / 10), digitChar MO, '-', digitChar (DA / 10), digitChar DA,
    'T', digitChar (HO / 10), digitChar HO, ':', digitChar (MI / 10), digitChar MI, ':',
    digitChar (SE / 10), digitChar SE, '.', '0', '0', '0', 'Z']⟩ = true
  simp only [isValidISO8601UTC, digitChar_isDigit, digitVal_digitChar, Bool.and_eq_true,
    beq_self_eq_true, decide_eq_true_eq, and_true, true_and]
  exact ⟨by decide, by omega⟩

/-- Every timestamp rendered by the model of `toISOString` (up to the last
second of year 9999, the range where JS uses the plain four-digit-year format)
passes the ISO-8601 validity check. -/
theorem jsToISOString_valid {t : Nat} (ht : t ≤ 253402300799) :
    isValidISO8601UTC (jsToISOString t) = true := by
  have hdays : t / 86400 ≤ 2932896 := by omega
  obtain ⟨hyle, hsum, hdoy⟩ := yearFromDays_spec (t / 86400) 1970
  have h1970 : daysSinceYear0 1970 = 719528 := by norm_num [daysSinceYear0]
  have hY : (yearFromDays 1970 (t / 86400)).1 ≤ 9999 := by
    by_contra hc
    push_neg at hc
    have hm : daysSinceYear0 10000 ≤ daysSinceYear0 (yearFromDays 1970 (t / 86400)).1 :=
      daysSinceYear0_mono (by omega)
    have h10000 : daysSinceYear0 10000 = 3652425 := by norm_num [daysSinceYear0]
    omega
  have hdoy366 : (yearFromDays 1970 (t / 86400)).2 < 366 :=
    Nat.lt_of_lt_of_le hdoy (daysInYear_le _)
  have hmd := monthFromDoy_ranges (yearFromDays 1970 (t / 86400)).2 hdoy366
  have hmo : 1 ≤ (monthFromDoy (monthLens (isLeap (yearFromDays 1970 (t / 86400)).1)) 1
        (yearFromDays 1970 (t / 86400)).2).1 ∧
      (monthFromDoy (monthLens (isLeap (yearFromDays 1970 (t / 86400)).1)) 1
        (yearFromDays 1970 (t / 86400)).2).1 ≤ 12 ∧
      (monthFromDoy (monthLens (isLeap (yearFromDays 1970 (t / 86400)).1)) 1
        (yearFromDays 1970 (t / 86400)).2).2 < 31 := by
    rcases hb : isLeap (yearFromDays 1970 (t / 86400)).1 with _ | _
    · have hni : daysInYear (yearFromDays 1970 (t / 86400)).1 = 365 := by
        simp [daysInYear, hb]
      exact hmd.2 (by omega)
    · exact hmd.1
  show isValidISO8601UTC (pad4 (yearFromDays 1970 (t / 86400)).1 ++ "-" ++
    pad2 (monthFromDoy (monthLens (isLeap (yearFromDays 1970 (t / 86400)).1)) 1
      (yearFromDays 1970 (t / 86400)).2).1 ++ "-" ++
    pad2 ((monthFromDoy (monthLens (isLeap (yearFromDays 1970 (t / 86400)).1)) 1
      (yearFromDays 1970 (t / 86400)).2).2 + 1) ++ "T" ++
    pad2 (t % 86400 / 3600) ++ ":" ++ pad2 (t % 86400 % 3600 / 60) ++ ":" ++
    pad2 (t % 86400 % 60) ++ ".000Z") = true
  exact isValidISO8601UTC_build _ _ _ _ _ _ hY hmo.1 hmo.2.1 (by omega) (by omega)
    (by omega) (by omega) (by omega)

/-- Anchored match of `^\d{4}-\d{2}-\d{2}$` together with field extraction. -/
def dateShapeParts (s : String) : Option (Nat × Nat × Nat) :=
  match s.data with
  | [y1, y2, y3, y4, a1, m1, m2, a2, d1, d2] =>
      if y1.isDigit && y2.isDigit && y3.isDigit && y4.isDigit && a1 == '-' &&
         m1.isDigit && m2.isDigit && a2 == '-' && d1.isDigit && d2.isDigit then
        some (digitVal y1 * 1000 + digitVal y2 * 100 + digitVal y3 * 10 + digitVal y4,
          digitVal m1 * 10 + digitVal m2, digitVal d1 * 10 + digitVal d2)
      else none
  | _ => none

/-- Days in month `m` (1-based) of year `y`. -/
def daysInMonth (y m : Nat) : Nat := (monthLens (isLeap y)).getD (m - 1) 0

/-- Whether `y-m-d` is a real calendar date.  JS `Date` turns a
`YYYY-MM-DD`-shaped string that is not a real date into `Invalid Date`. -/
def isRealDate (y m d : Nat) : Bool :=
  1 ≤ m && m ≤ 12 && 1 ≤ d && d ≤ daysInMonth y m

/-- Days of the months strictly before month `m` (1-based). -/
def monthDaysBefore (leap : Bool) (m : Nat) : Nat := ((monthLens leap).take (m - 1)).sum

/-- Signed day number of the civil date `y-m-d` relative to 1970-01-01
(`daysSinceYear0 1970 = 719528`). -/
def epochDaysOfDate (y m d : Nat) : Int :=
  (daysSinceYear0 y : Int) + (monthDaysBefore (isLeap y) m : Int) + (d : Int) - 1 - 719528

/-- Model of `parseTimestamp` (identical in src/config/db/accounts.js and
src/config/db/characters.js): `null` for a falsy input; for a
`YYYY-MM-DD`-shaped string, `Math.floor(new Date(s).getTime() / 1000)`, which
is the midnight-UTC Unix timestamp for a real date and `NaN` otherwise;
for all remaining strings `parseInt(s, 10)` with `NaN` mapped to `null`. -/
def parseTimestamp (s : String) : Option JsNum :=
  if s = "" then none
  else
    match dateShapeParts s with
    | some (y, m, d) =>
        if isRealDate y m d then some (JsNum.int (86400 * epochDaysOfDate y m d))
        else some JsNum.nan
    | none =>
        match jsParseInt s with
        | JsNum.nan => none
        | JsNum.int n => some (JsNum.int n)

/-- One row of the `accounts` table (columns selected by `getAccounts`;
`lastactive` is nullable). -/
structure AccountRow where
  login : String
  accessLevel : Int
  lastactive : Option Nat
  lastIP : String
  lastHWID : String
  lastServerId : Int
  ban_expire : Nat
  email : String
deriving DecidableEq, Repr

/-- One row of the `characters` table (columns used by the characters
repository; `deletetime = 0` means "not deleted"). -/
structure CharacterRow where
  obj_Id : Int
  char_name : String
  account_name : String
  sex : Int
  base_class_id : Int
  createtime : Nat
  deletetime : Nat
  lastAccess : Nat
  online : Int
  onlinetime : Nat
  clanid : Int
  title : String
  pvpkills : Int
  pkkills : Int
  karma : Int
  accesslevel : Int
  x : Int
  y : Int
  z : Int
deriving DecidableEq, Repr

/-- The raw (string-typed) filter object handed to the accounts
`buildWhereClause`; `none` is a JS `undefined` field. -/
structure AccountFilters where
  login : Option String := none
  email : Option String := none
  lastIP : Option String := none
  lastHWID : Option String := none
  lastServerId : Option String := none
  accessLevel : Option String := none
  lastActiveFrom : Option String := none
  lastActiveTo : Option String := none
  isBanned : Bool := false
deriving DecidableEq, Repr

/-- The raw (string-typed) filter object handed to the characters
`buildWhereClause`. -/
structure CharacterFilters where
  char_name : Option String := none
  account_name : Option String := none
  clanid : Option String := none
  online : Option String := none
  minLevel : Option String := none
  maxLevel : Option String := none
  createdAfter : Option String := none
  createdBefore : Option String := none
  lastAccessAfter : Option String := none
  lastAccessBefore : Option String := none
  sex : Option String := none
  deletedOnly : Option String := none
deriving DecidableEq, Repr

/-- JS truthiness of an optional string: `undefined` and `""` are falsy. -/
def strTruthy : Option String → Bool
  | none => false
  | some s => s != ""

/-- A positional SQL replacement parameter. -/
inductive SqlParam where
  | str (s : String)
  | num (n : JsNum)
deriving DecidableEq, Repr

/-- An `if (filters.x) { ... LIKE ... }` block of `buildWhereClause`: present
when the raw value is truthy, pushing the `%value%` pattern. -/
def strLikeChunk (raw : Option String) (cond : String) : List (String × List SqlParam) :=
  if strTruthy raw then [(cond, [SqlParam.str ("%" ++ raw.getD "" ++ "%")])] else []

/-- An integer comparison block of `buildWhereClause`: present under the given
presence test, pushing `parseInt(value, 10)`. -/
def intCmpChunk (present : Bool) (raw : Option String) (cond : String) :
    List (String × List SqlParam) :=
  if present then [(cond, [SqlParam.num (jsParseInt (raw.getD ""))])] else []

/-- A timestamp range block of `buildWhereClause`: present when the raw value
is truthy and `parseTimestamp` yields a truthy (nonzero, non-`NaN`) value. -/
def tsChunk (raw : Option String) (cond : String) : List (String × List SqlParam) :=
  if strTruthy raw then
    match parseTimestamp (raw.getD "") with
    | some (JsNum.int t) => if t != 0 then [(cond, [SqlParam.num (JsNum.int t)])] else []
    | _ => []
  else []

/-- The conditions built by the accounts `buildWhereClause`
(src/config/db/accounts.js), each paired with the parameters pushed for it, in
source order. -/
def accountWhereChunks (f : AccountFilters) (now : Nat) : List (String × List SqlParam) :=
  strLikeChunk f.login "`login` LIKE ?" ++
  strLikeChunk f.email "`l2email` LIKE ?" ++
  strLikeChunk f.lastIP "`lastIP` LIKE ?" ++
  strLikeChunk f.lastHWID "`lastHWID` LIKE ?" ++
  intCmpChunk (strTruthy f.lastServerId) f.lastServerId "`lastServerId` = ?" ++
  intCmpChunk f.accessLevel.isSome f.accessLevel "`accessLevel` = ?" ++
  tsChunk f.lastActiveFrom "`lastactive` >= ?" ++
  tsChunk f.lastActiveTo "`lastactive` <= ?" ++
  (if f.isBanned then [("`ban_expire` > ?", [SqlParam.num (JsNum.int now)])] else [])

/-- The conditions built by the characters `buildWhereClause`
(src/config/db/characters.js), each paired with the parameters pushed for it,
in source order.  The final block is the always-present soft-deletion
default. -/
def characterWhereChunks (f : CharacterFilters) : List (String × List SqlParam) :=
  strLikeChunk f.char_name "`char_name` LIKE ?" ++
  strLikeChunk f.account_name "`account_name` LIKE ?" ++
  intCmpChunk (strTruthy f.clanid) f.clanid "`clanid` = ?" ++
  (if f.online.isSome then
    [("`online` = ?", [SqlParam.num (JsNum.int (if f.online == some "true" then 1 else 0))])]
   else []) ++
  intCmpChunk f.minLevel.isSome f.minLevel "`base_class_id` >= ?" ++
  intCmpChunk f.maxLevel.isSome f.maxLevel "`base_class_id` <= ?" ++
  tsChunk f.createdAfter "`createtime` >= ?" ++
  tsChunk f.createdBefore "`createtime` <= ?" ++
  tsChunk f.lastAccessAfter "`lastAccess` >= ?" ++
  tsChunk f.lastAccessBefore "`lastAccess` <= ?" ++
  intCmpChunk f.sex.isSome f.sex "`sex` = ?" ++
  (if f.deletedOnly == some "true" then [("`deletetime` > 0", [])]
   else [("`deletetime` = 0", [])])

/-- The `WHERE ...` text assembled from the condition fragments. -/
def whereClauseOfChunks (chunks : List (String × List SqlParam)) : String :=
  let conds := chunks.map Prod.fst
  if conds.isEmpty then "" else "WHERE " ++ String.intercalate " AND " conds

/-- The positional parameter list assembled from the chunks. -/
def whereParamsOfChunks (chunks : List (String × List SqlParam)) : List SqlParam :=
  (chunks.map Prod.snd).flatten

/-- Whether a parameter is the JS `NaN` (such a replacement makes the SQL
query fail). -/
def sqlParamIsNan : SqlParam → Bool
  | SqlParam.num JsNum.nan => true
  | _ => false

/-- SQL `LIKE '%v%'` on a column value: substring containment (collation case
folding and wildcard characters inside `v` are not modelled). -/
def likeContains (hay needle : String) : Bool := decide (List.IsInfix needle.data hay.data)

/-- SQL `col = ?` against a JS-number parameter (`NaN` never matches; a `NaN`
parameter in fact fails the whole query, which the repositories guard). -/
def intEq (a : Int) : JsNum → Bool
  | JsNum.nan => false
  | JsNum.int n => a == n

/-- Row semantics of a `col >= ?` timestamp chunk: the predicate is only in
the clause when the raw filter is truthy and parses to a truthy timestamp;
a NULL column fails the comparison. -/
def tsGeMatches (raw : Option String) (v : Option Nat) : Bool :=
  if strTruthy raw then
    match parseTimestamp (raw.getD "") with
    | some (JsNum.int t) =>
        if t != 0 then
          match v with
          | some x => decide (t ≤ (x : Int))
          | none => false
        else true
    | _ => true
  else true

/-- Row semantics of a `col <= ?` timestamp chunk. -/
def tsLeMatches (raw : Option String) (v : Option Nat) : Bool :=
  if strTruthy raw then
    match parseTimestamp (raw.getD "") with
    | some (JsNum.int t) =>
        if t != 0 then
          match v with
          | some x => decide ((x : Int) ≤ t)
          | none => false
        else true
    | _ => true
  else true

/-- Row semantics of the accounts `WHERE` clause built by
`accountWhereChunks`: a row is returned by the SQL query exactly when every
condition fragment holds of it. -/
def accountRowMatches (f : AccountFilters) (now : Nat) (r : AccountRow) : Bool :=
  (!strTruthy f.login || likeContains r.login (f.login.getD "")) &&
  (!strTruthy f.email || likeContains r.email (f.email.getD "")) &&
  (!strTruthy f.lastIP || likeContains r.lastIP (f.lastIP.getD "")) &&
  (!strTruthy f.lastHWID || likeContains r.lastHWID (f.lastHWID.getD "")) &&
  (!strTruthy f.lastServerId || intEq r.lastServerId (jsParseInt (f.lastServerId.getD ""))) &&
  (!f.accessLevel.isSome || intEq r.accessLevel (jsParseInt (f.accessLevel.getD ""))) &&
  tsGeMatches f.lastActiveFrom r.lastactive &&
  tsLeMatches f.lastActiveTo r.lastactive &&
  (!f.isBanned || decide (now < r.ban_expire))

/-- Row semantics of the characters `WHERE` clause built by
`characterWhereChunks`. -/
def characterRowMatches (f : CharacterFilters) (r : CharacterRow) : Bool :=
  (!strTruthy f.char_name || likeContains r.char_name (f.char_name.getD "")) &&
  (!strTruthy f.account_name || likeContains r.account_name (f.account_name.getD "")) &&
  (!strTruthy f.clanid || intEq r.clanid (jsParseInt (f.clanid.getD ""))) &&
  (!f.online.isSome || r.online == (if f.online == some "true" then 1 else 0)) &&
  (!f.minLevel.isSome ||
    match jsParseInt (f.minLevel.getD "") with
    | JsNum.nan => false
    | JsNum.int n => decide (n ≤ r.base_class_id)) &&
  (!f.maxLevel.isSome ||
    match jsParseInt (f.maxLevel.getD "") with
    | JsNum.nan => false
    | JsNum.int n => decide (r.base_class_id ≤ n)) &&
  tsGeMatches f.createdAfter (some r.createtime) &&
  tsLeMatches f.createdBefore (some r.createtime) &&
  tsGeMatches f.lastAccessAfter (some r.lastAccess) &&
  tsLeMatches f.lastAccessBefore (some r.lastAccess) &&
  (!f.sex.isSome || intEq r.sex (jsParseInt (f.sex.getD ""))) &&
  (if f.deletedOnly == some "true" then decide (0 < r.deletetime) else r.deletetime == 0)

/-- The fixed sortable-column allow-list of `getAccounts`. -/
def accountValidSortFields : List String :=
  ["login", "lastactive", "accessLevel", "lastIP", "lastHWID", "lastServerId", "ban_expire"]

/-- The fixed sortable-column allow-list of `getCharacters`. -/
def characterValidSortFields : List String :=
  ["char_name", "account_name", "createtime", "lastAccess", "online", "clanid", "pvpkills",
    "pkkills", "karma", "onlinetime"]

/-- `validSortFields.includes(sortBy) ? sortBy : 'login'`. -/
def accountSortField (sortBy : String) : String :=
  if accountValidSortFields.contains sortBy then sortBy else "login"

/-- `validSortFields.includes(sortBy) ? sortBy : 'char_name'`. -/
def characterSortField (sortBy : String) : String :=
  if characterValidSortFields.contains sortBy then sortBy else "char_name"

/-- JS `String.prototype.toLowerCase` (character-wise lowering). -/
def jsToLowerCase (s : String) : String := ⟨s.data.map Char.toLower⟩

/-- `sortOrder.toLowerCase() === 'desc' ? 'DESC' : 'ASC'`. -/
def sqlSortOrder (sortOrder : String) : String :=
  if jsToLowerCase sortOrder = "desc" then "DESC" else "ASC"

/-- SQL ordering on a nullable integer column (NULLs sort first ascending). -/
def optNatLe : Option Nat → Option Nat → Bool
  | none, _ => true
  | some _, none => false
  | some a, some b => decide (a ≤ b)

/-- Column comparison used by `ORDER BY` for accounts. -/
def accountFieldLe (field : String) (a b : AccountRow) : Bool :=
  if field = "lastactive" then optNatLe a.lastactive b.lastactive
  else if field = "accessLevel" then decide (a.accessLevel ≤ b.accessLevel)
  else if field = "lastIP" then decide (a.lastIP ≤ b.lastIP)
  else if field = "lastHWID" then decide (a.lastHWID ≤ b.lastHWID)
  else if field = "lastServerId" then decide (a.lastServerId ≤ b.lastServerId)
  else if field = "ban_expire" then decide (a.ban_expire ≤ b.ban_expire)
  else decide (a.login ≤ b.login)

/-- Column comparison used by `ORDER BY` for characters. -/
def characterFieldLe (field : String) (a b : CharacterRow) : Bool :=
  if field = "account_name" then decide (a.account_name ≤ b.account_name)
  else if field = "createtime" then decide (a.createtime ≤ b.createtime)
  else if field = "lastAccess" then decide (a.lastAccess ≤ b.lastAccess)
  else if field = "online" then decide (a.online ≤ b.online)
  else if field = "clanid" then decide (a.clanid ≤ b.clanid)
  else if field = "pvpkills" then decide (a.pvpkills ≤ b.pvpkills)
  else if field = "pkkills" then decide (a.pkkills ≤ b.pkkills)
  else if field = "karma" then decide (a.karma ≤ b.karma)
  else if field = "onlinetime" then decide (a.onlinetime ≤ b.onlinetime)
  else decide (a.char_name ≤ b.char_name)

/-- Stable insertion of an element into a sorted list. -/
def orderedInsertB {α : Type} (le : α → α → Bool) (a : α) : List α → List α
  | [] => [a]
  | b :: l => if le a b then a :: b :: l else b :: orderedInsertB le a l

/-- A stable insertion sort, used to model the deterministic row order of
`ORDER BY`. -/
def insertionSortB {α : Type} (le : α → α → Bool) : List α → List α
  | [] => []
  | a :: l => orderedInsertB le a (insertionSortB le l)

/-- `ORDER BY field order`: a stable sort under the column comparison,
reversed comparison for `DESC`. -/
def sortRows {α : Type} (le : α → α → Bool) (ord : String) (l : List α) : List α :=
  if ord = "DESC" then insertionSortB (fun a b => le b a) l else insertionSortB le l

/-- Pagination metadata block returned by the list operations. -/
structure Pagination where
  total : Nat
  page : Int
  limit : Int
  totalPages : Int
deriving DecidableEq, Repr

/-- An account row as returned by the `getAccounts` mapping step, with the
derived fields appended. -/
structure EnrichedAccount where
  login : String
  accessLevel : Int
  lastactive : Option Nat
  lastIP : String
  lastHWID : String
  lastServerId : Int
  ban_expire : Nat
  email : String
  lastactiveDate : Option String
  isBanned : Bool
  banExpireDate : Option String
deriving DecidableEq, Repr

/-- A character row as returned by `enrichCharacterData`, with the derived
fields appended. -/
structure EnrichedCharacter where
  obj_Id : Int
  char_name : String
  account_name : String
  sex : Int
  createtime : Nat
  deletetime : Nat
  lastAccess : Nat
  online : Int
  onlinetime : Nat
  clanid : Int
  title : String
  pvpkills : Int
  pkkills : Int
  karma : Int
  createDate : Option String
  deleteDate : Option String
  lastAccessDate : Option String
  isOnline : Bool
  isDeleted : Bool
  gender : String
  onlineTimeHours : Nat
deriving DecidableEq, Repr

/-- The per-account mapping inside `getAccounts` (src/config/db/accounts.js):
`lastactiveDate`, `isBanned` and `banExpireDate` are derived using the
request-time clock `now`. -/
def enrichAccountData (now : Nat) (a : AccountRow) : EnrichedAccount :=
  { login := a.login, accessLevel := a.accessLevel, lastactive := a.lastactive,
    lastIP := a.lastIP, lastHWID := a.lastHWID, lastServerId := a.lastServerId,
    ban_expire := a.ban_expire, email := a.email,
    lastactiveDate :=
      match a.lastactive with
      | some t => if t != 0 then some (jsToISOString t) else none
      | none => none,
    isBanned := decide (now < a.ban_expire),
    banExpireDate :=
      if now < a.ban_expire then some (jsToISOString a.ban_expire) else none }

/-- `enrichCharacterData` (src/config/db/characters.js). -/
def enrichCharacterData (c : CharacterRow) : EnrichedCharacter :=
  { obj_Id := c.obj_Id, char_name := c.char_name, account_name := c.account_name,
    sex := c.sex, createtime := c.createtime, deletetime := c.deletetime,
    lastAccess := c.lastAccess, online := c.online, onlinetime := c.onlinetime,
    clanid := c.clanid, title := c.title, pvpkills := c.pvpkills, pkkills := c.pkkills,
    karma := c.karma,
    createDate := if c.createtime != 0 then some (jsToISOString c.createtime) else none,
    deleteDate :=
      if c.deletetime != 0 && decide (0 < c.deletetime) then some (jsToISOString c.deletetime)
      else none,
    lastAccessDate := if c.lastAccess != 0 then some (jsToISOString c.lastAccess) else none,
    isOnline := c.online == 1,
    isDeleted := decide (0 < c.deletetime),
    gender := if c.sex == 1 then "male" else "female",
    onlineTimeHours := c.onlinetime / 3600 }

/-- `Math.ceil(total / limit)` for a nonnegative `total` and positive `limit`
(for `limit ≤ 0` JS produces a non-integer value that never arises in the
claims). -/
def mathCeilDiv (total : Nat) (limit : Int) : Int := ((total : Int) + limit - 1) / limit

/-- `offset = (page - 1) * limit` as computed by the list operations. -/
def pageOffset (page limit : Int) : Int := (page - 1) * limit

/-- Result of `getAccounts`. -/
structure AccountsListResult where
  accounts : List EnrichedAccount
  pagination : Pagination
deriving DecidableEq, Repr

/-- Result of `getCharacters`. -/
structure CharactersListResult where
  characters : List EnrichedCharacter
  pagination : Pagination
deriving DecidableEq, Repr

/-- `getAccounts` (src/config/db/accounts.js): count query and data query over
the same `WHERE` clause, `ORDER BY` a validated sort field, `LIMIT ? OFFSET ?`
slicing and per-row enrichment.  `none` models the query error raised when a
replacement parameter is `NaN` or `LIMIT`/`OFFSET` is negative. -/
def getAccounts (db : List AccountRow) (now : Nat) (page limit : Int)
    (filters : AccountFilters) (sortBy sortOrder : String) : Option AccountsListResult :=
  let offset := pageOffset page limit
  let chunks := accountWhereChunks filters now
  let matched := db.filter (accountRowMatches filters now)
  let total := matched.length
  if (whereParamsOfChunks chunks).any sqlParamIsNan || limit < 0 || offset < 0 then none
  else
    let sorted := sortRows (accountFieldLe (accountSortField sortBy)) (sqlSortOrder sortOrder)
      matched
    let rows := (sorted.drop offset.toNat).take limit.toNat
    some { accounts := rows.map (enrichAccountData now),
           pagination := { total := total, page := page, limit := limit,
                           totalPages := mathCeilDiv total limit } }

/-- `getCharacters` (src/config/db/characters.js), same shape as
`getAccounts`. -/
def getCharacters (db : List CharacterRow) (page limit : Int)
    (filters : CharacterFilters) (sortBy sortOrder : String) : Option CharactersListResult :=
  let offset := pageOffset page limit
  let chunks := characterWhereChunks filters
  let matched := db.filter (characterRowMatches filters)
  let total := matched.length
  if (whereParamsOfChunks chunks).any sqlParamIsNan || limit < 0 || offset < 0 then none
  else
    let sorted := sortRows (characterFieldLe (characterSortField sortBy)) (sqlSortOrder sortOrder)
      matched
    let rows := (sorted.drop offset.toNat).take limit.toNat
    some { characters := rows.map enrichCharacterData,
           pagination := { total := total, page := page, limit := limit,
                           totalPages := mathCeilDiv total limit } }

/-- `charactersDb.exists`: `COUNT(*) > 0` over rows with the given name and
`deletetime = 0`. -/
def charactersExists (db : List CharacterRow) (charName : String) : Bool :=
  decide (0 < db.countP (fun r => r.char_name == charName && r.deletetime == 0))

/-- `charactersDb.existsById`: `COUNT(*) > 0` over rows with the given
`obj_Id` and `deletetime = 0`. -/
def charactersExistsById (db : List CharacterRow) (objId : Int) : Bool :=
  decide (0 < db.countP (fun r => r.obj_Id == objId && r.deletetime == 0))

/-- `accountsDb.exists`: `COUNT(*) > 0` over rows with the given login. -/
def accountsExists (db : List AccountRow) (login : String) : Bool :=
  decide (0 < db.countP (fun r => r.login == login))

/-- `charactersDb.loadById`: first row with the given `obj_Id` and
`deletetime = 0`, enriched; `null` when there is none. -/
def loadById (db : List CharacterRow) (objId : Int) : Option EnrichedCharacter :=
  (db.find? (fun r => r.obj_Id == objId && r.deletetime == 0)).map enrichCharacterData

/-- The raw query string parameters of `GET /api/login/account/list`. -/
structure AccountListQuery where
  page : Option String := none
  limit : Option String := none
  login : Option String := none
  email : Option String := none
  lastIP : Option String := none
  lastHWID : Option String := none
  lastServerId : Option String := none
  accessLevel : Option String := none
  lastActiveFrom : Option String := none
  lastActiveTo : Option String := none
  isBanned : Option String := none
  sortBy : Option String := none
  sortOrder : Option String := none
deriving DecidableEq, Repr

/-- The raw query string parameters of `GET /api/game/characters/list`. -/
structure CharacterListQuery where
  page : Option String := none
  limit : Option String := none
  char_name : Option String := none
  account_name : Option String := none
  clanid : Option String := none
  online : Option String := none
  minLevel : Option String := none
  maxLevel : Option String := none
  createdAfter : Option String := none
  createdBefore : Option String := none
  lastAccessAfter : Option String := none
  lastAccessBefore : Option String := none
  sex : Option String := none
  deletedOnly : Option String := none
  sortBy : Option String := none
  sortOrder : Option String := none
deriving DecidableEq, Repr

/-- The filter object assembled by the accounts `/list` route handler
(src/api/login/account.js): string filters are copied when truthy,
`accessLevel` when present, and `isBanned` becomes `true` exactly when the raw
value is the string `"true"`. -/
def accountFiltersOfQuery (q : AccountListQuery) : AccountFilters :=
  { login := if strTruthy q.login then q.login else none,
    email := if strTruthy q.email then q.email else none,
    lastIP := if strTruthy q.lastIP then q.lastIP else none,
    lastHWID := if strTruthy q.lastHWID then q.lastHWID else none,
    lastServerId := if strTruthy q.lastServerId then q.lastServerId else none,
    accessLevel := if q.accessLevel.isSome then q.accessLevel else none,
    lastActiveFrom := if strTruthy q.lastActiveFrom then q.lastActiveFrom else none,
    lastActiveTo := if strTruthy q.lastActiveTo then q.lastActiveTo else none,
    isBanned := q.isBanned == some "true" }

/-- The filter object assembled by the characters `/list` route handler
(src/api/game/characters/characters-details.js): `online` and `sex` are copied
whenever present, the rest when truthy, and `deletedOnly` is set (to the
string `"true"`) exactly when the raw value is the string `"true"`. -/
def characterFiltersOfQuery (q : CharacterListQuery) : CharacterFilters :=
  { char_name := if strTruthy q.char_name then q.char_name else none,
    account_name := if strTruthy q.account_name then q.account_name else none,
    clanid := if strTruthy q.clanid then q.clanid else none,
    online := q.online,
    minLevel := if strTruthy q.minLevel then q.minLevel else none,
    maxLevel := if strTruthy q.maxLevel then q.maxLevel else none,
    createdAfter := if strTruthy q.createdAfter then q.createdAfter else none,
    createdBefore := if strTruthy q.createdBefore then q.createdBefore else none,
    lastAccessAfter := if strTruthy q.lastAccessAfter then q.lastAccessAfter else none,
    lastAccessBefore := if strTruthy q.lastAccessBefore then q.lastAccessBefore else none,
    sex := q.sex,
    deletedOnly := if q.deletedOnly == some "true" then some "true" else none }

/-- `parseInt(raw || dflt, 10)` as used by both `/list` routes for `page` and
`limit`: the default applies only to an absent or empty (falsy) value; any
other string goes through `parseInt` unchanged, so a non-numeric value yields
`NaN` and `"0"` or a negative numeral is passed through as-is. -/
def routeIntParam (raw : Option String) (dflt : Nat) : JsNum :=
  match raw with
  | none => JsNum.int dflt
  | some s => if s = "" then JsNum.int dflt else jsParseInt s

/-- Response of `GET /api/game/characters/:charId`. -/
structure CharByIdResponse where
  status : Nat
  character : Option EnrichedCharacter
deriving DecidableEq, Repr

/-- The `GET /api/game/characters/:charId` handler: 400 when `parseInt` on the
path segment yields `NaN`, otherwise 404 when `loadById` returns `null`, else
200 with the enriched character. -/
def getCharacterByIdHandler (db : List CharacterRow) (charId : String) : CharByIdResponse :=
  match jsParseInt charId with
  | JsNum.nan => { status := 400, character := none }
  | JsNum.int objId =>
      match loadById db objId with
      | none => { status := 404, character := none }
      | some c => { status := 200, character := some c }

/-- The `GET /api/game/characters/:charName/exists` handler body: the route
returns `{ exists: charactersDb.exists(charName) }` with status 200. -/
def charExistsHandler (db : List CharacterRow) (charName : String) : Bool :=
  charactersExists db charName

/-- Response of `POST /api/login/account/:login/unban`. -/
structure UnbanResponse where
  status : Nat
  success : Bool
deriving DecidableEq, Repr

/-- The `UPDATE accounts SET ban_expire = 0 WHERE login = ?` effect on one
row. -/
def unbanAccountRow (login : String) (r : AccountRow) : AccountRow :=
  if r.login == login then { r with ban_expire := 0 } else r

/-- The `POST /api/login/account/:login/unban` handler: 404 when no account
row has the login, otherwise set `ban_expire = 0` on the matching rows and
answer success; returns the response together with the updated table. -/
def unbanHandler (db : List AccountRow) (login : String) : UnbanResponse × List AccountRow :=
  if accountsExists db login then
    ({ status := 200, success := true }, db.map (unbanAccountRow login))
  else
    ({ status := 404, success := false }, db)

theorem mem_strLikeChunk_iff {x : String × List SqlParam} {raw : Option String} {cond : String} :
    x ∈ strLikeChunk raw cond ↔
      (strTruthy raw = true ∧ x = (cond, [SqlParam.str ("%" ++ raw.getD "" ++ "%")])) := by
  unfold strLikeChunk
  split <;> simp_all

theorem mem_intCmpChunk_iff {x : String × List SqlParam} {p : Bool} {raw : Option String}
    {cond : String} :
    x ∈ intCmpChunk p raw cond ↔
      (p = true ∧ x = (cond, [SqlParam.num (jsParseInt (raw.getD ""))])) := by
  unfold intCmpChunk
  split <;> simp_all

theorem mem_tsChunk_iff {x : String × List SqlParam} {raw : Option String} {cond : String} :
    x ∈ tsChunk raw cond ↔
      (strTruthy raw = true ∧ ∃ t : Int, parseTimestamp (raw.getD "") = some (JsNum.int t) ∧
        ¬t = 0 ∧ x = (cond, [SqlParam.num (JsNum.int t)])) := by
  unfold tsChunk
  split
  · rename_i htr
    rcases hp : parseTimestamp (raw.getD "") with _ | n
    · simp_all
    · rcases n with _ | t
      · simp_all
      · by_cases ht : t = 0 <;> simp_all
  · simp_all

/-- C2: in the characters `WHERE` clause, the `deletetime > 0` predicate is
present exactly when the `deletedOnly` filter is the string `"true"`, and the
`deletetime = 0` predicate is present exactly otherwise — never both. -/
theorem characterWhere_deletetime_exclusive (f : CharacterFilters) :
    (("`deletetime` > 0" ∈ (characterWhereChunks f).map Prod.fst) ↔
      f.deletedOnly = some "true") ∧
    (("`deletetime` = 0" ∈ (characterWhereChunks f).map Prod.fst) ↔
      ¬f.deletedOnly = some "true") := by
  by_cases hd : f.deletedOnly = some "true" <;>
    simp_all [characterWhereChunks, List.mem_append, List.mem_map, mem_strLikeChunk_iff,
      mem_intCmpChunk_iff, mem_tsChunk_iff]

/-- C4: the boolean-flag inputs are strict: `isBanned` contributes its
`ban_expire > now` predicate exactly when the raw query value is the string
`"true"`; `deletedOnly` contributes `deletetime > 0` exactly when the raw
value is `"true"`; and the `online` predicate carries parameter `1` (the
true branch) exactly when the raw value is `"true"`, every other present
value (including `"false"`) yielding parameter `0`. -/
theorem booleanFlag_strict_true_semantics :
    (∀ (q : AccountListQuery) (now : Nat),
      ("`ban_expire` > ?" ∈ (accountWhereChunks (accountFiltersOfQuery q) now).map Prod.fst) ↔
        q.isBanned = some "true") ∧
    (∀ q : CharacterListQuery,
      ("`deletetime` > 0" ∈ (characterWhereChunks (characterFiltersOfQuery q)).map Prod.fst) ↔
        q.deletedOnly = some "true") ∧
    (∀ q : CharacterListQuery,
      (("`online` = ?", [SqlParam.num (JsNum.int 1)]) ∈
          characterWhereChunks (characterFiltersOfQuery q)) ↔
        q.online = some "true") ∧
    (∀ q : CharacterListQuery,
      (("`online` = ?", [SqlParam.num (JsNum.int 0)]) ∈
          characterWhereChunks (characterFiltersOfQuery q)) ↔
        (q.online.isSome ∧ ¬q.online = some "true")) := by
  refine ⟨?_, ?_, ?_, ?_⟩
  · intro q now
    by_cases hb : q.isBanned = some "true" <;>
      simp_all [accountWhereChunks, accountFiltersOfQuery, List.mem_append, List.mem_map,
        mem_strLikeChunk_iff, mem_intCmpChunk_iff, mem_tsChunk_iff]
  · intro q
    by_cases hd : q.deletedOnly = some "true" <;>
      simp_all [characterWhereChunks, characterFiltersOfQuery, List.mem_append, List.mem_map,
        mem_strLikeChunk_iff, mem_intCmpChunk_iff, mem_tsChunk_iff]
  · intro q
    by_cases ho : q.online = some "true" <;>
      simp_all [characterWhereChunks, characterFiltersOfQuery, List.mem_append,
        mem_strLikeChunk_iff, mem_intCmpChunk_iff, mem_tsChunk_iff] <;>
      (split <;> simp)
  · intro q
    rcases hq : q.online with _ | v
    · simp_all [characterWhereChunks, characterFiltersOfQuery, List.mem_append,
        mem_strLikeChunk_iff, mem_intCmpChunk_iff, mem_tsChunk_iff]
      split <;> simp
    · by_cases hv : v = "true" <;>
        simp_all [characterWhereChunks, characterFiltersOfQuery, List.mem_append,
          mem_strLikeChunk_iff, mem_intCmpChunk_iff, mem_tsChunk_iff] <;>
        (split <;> simp)

/-- C5: any `sortBy` outside the per-entity allow-list falls back to the
default sort field (`login` for accounts, `char_name` for characters), and
any `sortOrder` whose lowercase form is not `desc` falls back to `ASC`. -/
theorem sortBy_sortOrder_fallbacks (sba sbc so : String)
    (ha : sba ∉ accountValidSortFields) (hc : sbc ∉ characterValidSortFields)
    (hso : ¬jsToLowerCase so = "desc") :
    accountSortField sba = "login" ∧ characterSortField sbc = "char_name" ∧
    sqlSortOrder so = "ASC" := by
  refine ⟨?_, ?_, ?_⟩
  · simp [accountSortField, ha]
  · simp [characterSortField, hc]
  · simp [sqlSortOrder, hso]

theorem sortBy_sortOrder_fallbacks_witness :
    accountSortField "deletetime" = "login" ∧ characterSortField "l2email" = "char_name" ∧
    sqlSortOrder "descending" = "ASC" :=
  sortBy_sortOrder_fallbacks "deletetime" "l2email" "descending"
    (by decide) (by decide) (by decide)

/-- A soft-deleted character row (nonzero `deletetime`), used as a concrete
witness input. -/
def sampleDeletedChar : CharacterRow :=
  { obj_Id := 5, char_name := "Ghost", account_name := "acc1", sex := 1,
    base_class_id := 10, createtime := 1600000000, deletetime := 1600100000,
    lastAccess := 1600050000, online := 0, onlinetime := 7200, clanid := 0,
    title := "", pvpkills := 2, pkkills := 1, karma := 0, accesslevel := 0,
    x := 10, y := 20, z := 30 }

/-- A live (non-deleted) character row used as a concrete witness input. -/
def sampleLiveChar : CharacterRow :=
  { obj_Id := 7, char_name := "Alive", account_name := "acc2", sex := 0,
    base_class_id := 4, createtime := 1500000000, deletetime := 0,
    lastAccess := 1700000000, online := 1, onlinetime := 3600, clanid := 3,
    title := "t", pvpkills := 0, pkkills := 0, karma := 5, accesslevel := 0,
    x := 1, y := 2, z := 3 }

/-- A banned account row used as a concrete witness input. -/
def sampleBannedAccount : AccountRow :=
  { login := "tester01", accessLevel := 0, lastactive := some 1600000000,
    lastIP := "127.0.0.1", lastHWID := "HW1", lastServerId := 1,
    ban_expire := 1893456000, email := "t1@example.com" }

/-- C10: the character existence checks count only non-deleted rows, so a
soft-deleted character (row still stored, `deletetime > 0`) is reported as
not existing, by name, by id, and through the `/exists` route body. -/
theorem softDeleted_not_exists (db : List CharacterRow) (c : CharacterRow)
    (hc : c ∈ db) (hdel : 0 < c.deletetime)
    (hname : ∀ r ∈ db, r.char_name = c.char_name → 0 < r.deletetime)
    (hid : ∀ r ∈ db, r.obj_Id = c.obj_Id → 0 < r.deletetime) :
    charactersExists db c.char_name = false ∧
    charactersExistsById db c.obj_Id = false ∧
    charExistsHandler db c.char_name = false := by
  have h1 : db.countP (fun r => r.char_name == c.char_name && r.deletetime == 0) = 0 := by
    rw [List.countP_eq_zero]
    intro r hr
    simp only [Bool.and_eq_true, beq_iff_eq, not_and]
    intro he
    have := hname r hr he
    omega
  have h2 : db.countP (fun r => r.obj_Id == c.obj_Id && r.deletetime == 0) = 0 := by
    rw [List.countP_eq_zero]
    intro r hr
    simp only [Bool.and_eq_true, beq_iff_eq, not_and]
    intro he
    have := hid r hr he
    omega
  refine ⟨?_, ?_, ?_⟩
  · simp [charactersExists, h1]
  · simp [charactersExistsById, h2]
  · simp [charExistsHandler, charactersExists, h1]

theorem softDeleted_not_exists_witness :
    charactersExists [sampleDeletedChar] "Ghost" = false ∧
    charactersExistsById [sampleDeletedChar] 5 = false ∧
    charExistsHandler [sampleDeletedChar] "Ghost" = false :=
  softDeleted_not_exists [sampleDeletedChar] sampleDeletedChar (by decide) (by decide)
    (by decide) (by decide)

/-- C9: unbanning is idempotent: when the account exists, the first call
succeeds, and a second call on the updated table returns the same success
response and leaves the table unchanged. -/
theorem unban_idempotent (db : List AccountRow) (login : String)
    (h : accountsExists db login = true) :
    (unbanHandler db login).1 = { status := 200, success := true } ∧
    (unbanHandler (unbanHandler db login).2 login).1 = (unbanHandler db login).1 ∧
    (unbanHandler (unbanHandler db login).2 login).2 = (unbanHandler db login).2 := by
  have hlogin : ∀ r : AccountRow, (unbanAccountRow login r).login = r.login := by
    intro r
    unfold unbanAccountRow
    split <;> rfl
  have hidem : ∀ r : AccountRow,
      unbanAccountRow login (unbanAccountRow login r) = unbanAccountRow login r := by
    intro r
    by_cases hr : (r.login == login) = true <;> simp [unbanAccountRow, hr]
  have h2 : accountsExists (db.map (unbanAccountRow login)) login = accountsExists db login := by
    unfold accountsExists
    rw [List.countP_map]
    have hcp : List.countP ((fun r : AccountRow => r.login == login) ∘ unbanAccountRow login) db
        = List.countP (fun r : AccountRow => r.login == login) db :=
      List.countP_congr (fun r _ => by simp [Function.comp, hlogin r])
    rw [hcp]
  refine ⟨?_, ?_, ?_⟩
  · simp [unbanHandler, h]
  · simp [unbanHandler, h, h2]
  · simp only [unbanHandler, h, h2, if_true, List.map_map]
    exact List.map_congr_left (fun a _ => hidem a)

theorem unban_idempotent_witness :
    (unbanHandler [sampleBannedAccount] "tester01").1 = { status := 200, success := true } :=
  (unban_idempotent [sampleBannedAccount] "tester01" (by decide)).1

/-- C8: the character-by-id route answers 400 when the path id parses to
`NaN`, 404 when no row has the id, and 404 when every row with the id is
soft-deleted (`loadById` restricts its query to `deletetime = 0`). -/
theorem charById_status_semantics :
    (∀ (db : List CharacterRow) (s : String),
      jsParseInt s = JsNum.nan → (getCharacterByIdHandler db s).status = 400) ∧
    (∀ (db : List CharacterRow) (s : String) (i : Int),
      jsParseInt s = JsNum.int i → (∀ r ∈ db, ¬r.obj_Id = i) →
      (getCharacterByIdHandler db s).status = 404) ∧
    (∀ (db : List CharacterRow) (s : String) (i : Int),
      jsParseInt s = JsNum.int i → (∀ r ∈ db, r.obj_Id = i → 0 < r.deletetime) →
      (getCharacterByIdHandler db s).status = 404) := by
  refine ⟨?_, ?_, ?_⟩
  · intro db s h
    simp [getCharacterByIdHandler, h]
  · intro db s i h hno
    have hfind : db.find? (fun r => r.obj_Id == i && r.deletetime == 0) = none := by
      rw [List.find?_eq_none]
      intro r hr
      simp only [Bool.and_eq_true, beq_iff_eq, not_and]
      intro he
      exact absurd he (hno r hr)
    simp [getCharacterByIdHandler, h, loadById, hfind]
  · intro db s i h hdel
    have hfind : db.find? (fun r => r.obj_Id == i && r.deletetime == 0) = none := by
      rw [List.find?_eq_none]
      intro r hr
      simp only [Bool.and_eq_true, beq_iff_eq, not_and]
      intro he
      have := hdel r hr he
      omega
    simp [getCharacterByIdHandler, h, loadById, hfind]

theorem charById_status_semantics_witness :
    (getCharacterByIdHandler [] "abc").status = 400 ∧
    (getCharacterByIdHandler [sampleDeletedChar] "7").status = 404 ∧
    (getCharacterByIdHandler [sampleDeletedChar] "5").status = 404 :=
  ⟨charById_status_semantics.1 [] "abc" (by decide),
    charById_status_semantics.2.1 [sampleDeletedChar] "7" 7 (by decide) (by decide),
    charById_status_semantics.2.2 [sampleDeletedChar] "5" 5 (by decide) (by decide)⟩

theorem length_orderedInsertB {α : Type} (le : α → α → Bool) (a : α) :
    ∀ l : List α, (orderedInsertB le a l).length = l.length + 1
  | [] => rfl
  | b :: l => by
    simp only [orderedInsertB]
    split
    · rfl
    · simp [List.length_cons, length_orderedInsertB le a l]

theorem length_insertionSortB {α : Type} (le : α → α → Bool) :
    ∀ l : List α, (insertionSortB le l).length = l.length
  | [] => rfl
  | a :: l => by
    simp [insertionSortB, length_orderedInsertB, length_insertionSortB le l]

theorem length_sortRows {α : Type} (le : α → α → Bool) (ord : String) (l : List α) :
    (sortRows le ord l).length = l.length := by
  unfold sortRows
  split <;> apply length_insertionSortB

theorem natCeilDiv_spec (n l : Nat) (h : 1 ≤ l) :
    n ≤ l * ((n + l - 1) / l) ∧ (0 < n → l * ((n + l - 1) / l - 1) < n) := by
  have hdm := Nat.div_add_mod (n + l - 1) l
  have hlt : (n + l - 1) % l < l := Nat.mod_lt _ (by omega)
  obtain ⟨q, hq⟩ : ∃ q, (n + l - 1) / l = q := ⟨_, rfl⟩
  rw [hq] at hdm
  rw [hq]
  rcases q with _ | q'
  · omega
  · have hexp : l * (q' + 1) = l * q' + l := by ring
    have hs : l * (q' + 1 - 1) = l * q' := by norm_num
    rw [hexp] at hdm
    rw [hexp, hs]
    generalize l * q' = A at hdm ⊢
    omega

theorem mathCeilDiv_bounds (total : Nat) (limit : Int) (h : 1 ≤ limit) :
    (total : Int) ≤ limit * mathCeilDiv total limit ∧
    ((0 : Int) < total → limit * (mathCeilDiv total limit - 1) < total) := by
  have heq : mathCeilDiv total limit = ((total + limit.toNat - 1) / limit.toNat : Nat) := by
    unfold mathCeilDiv
    have e1 : (total : Int) + limit - 1 = ((total + limit.toNat - 1 : Nat) : Int) := by omega
    have e2 : limit = (limit.toNat : Int) := by omega
    rw [e1, e2]
    exact (Int.ofNat_div _ _).symm
  obtain ⟨ha, hb⟩ := natCeilDiv_spec total limit.toNat (by omega)
  have e2 : limit = (limit.toNat : Int) := by omega
  rw [heq]
  constructor
  · rw [e2]
    exact_mod_cast ha
  · intro hpos
    have hb' := hb (by exact_mod_cast hpos)
    rcases Nat.eq_zero_or_pos ((total + limit.toNat - 1) / limit.toNat) with hq0 | hq1
    · rw [hq0] at ha
      simp at ha
      omega
    · have hcast : (((total + limit.toNat - 1) / limit.toNat : Nat) : Int) - 1
          = (((total + limit.toNat - 1) / limit.toNat - 1 : Nat) : Int) := by omega
      rw [hcast, e2]
      simp only [Int.toNat_ofNat]
      exact_mod_cast hb'

/-- C1: for every call of `getAccounts` or `getCharacters` with `page ≥ 1` and
`limit ≥ 1` that returns a result, the pagination metadata satisfies
`totalPages = Math.ceil(total / limit)` (stated by the two ceiling
inequalities characterising it) and the number of returned rows is at most
`limit` (the data query is bounded by `LIMIT limit OFFSET (page-1)*limit`). -/
theorem list_pagination_correct (page limit : Int) (h1 : 1 ≤ page) (h2 : 1 ≤ limit) :
    (∀ (db : List AccountRow) (now : Nat) (f : AccountFilters) (sb so : String)
      (r : AccountsListResult), getAccounts db now page limit f sb so = some r →
        r.pagination.totalPages = mathCeilDiv r.pagination.total limit ∧
        (r.pagination.total : Int) ≤ limit * r.pagination.totalPages ∧
        ((0 : Int) < r.pagination.total →
          limit * (r.pagination.totalPages - 1) < r.pagination.total) ∧
        (r.accounts.length : Int) ≤ limit) ∧
    (∀ (db : List CharacterRow) (f : CharacterFilters) (sb so : String)
      (r : CharactersListResult), getCharacters db page limit f sb so = some r →
        r.pagination.totalPages = mathCeilDiv r.pagination.total limit ∧
        (r.pagination.total : Int) ≤ limit * r.pagination.totalPages ∧
        ((0 : Int) < r.pagination.total →
          limit * (r.pagination.totalPages - 1) < r.pagination.total) ∧
        (r.characters.length : Int) ≤ limit) := by
  constructor
  · intro db now f sb so r hr
    simp only [getAccounts] at hr
    split at hr
    · exact absurd hr (by simp)
    · injection hr with hr
      subst hr
      refine ⟨rfl, (mathCeilDiv_bounds _ limit h2).1, (mathCeilDiv_bounds _ limit h2).2, ?_⟩
      simp only [List.length_map, List.length_take]
      have hmin : min limit.toNat
          ((sortRows (accountFieldLe (accountSortField sb)) (sqlSortOrder so)
            (db.filter (accountRowMatches f now))).drop (pageOffset page limit).toNat).length
          ≤ limit.toNat := Nat.min_le_left _ _
      omega
  · intro db f sb so r hr
    simp only [getCharacters] at hr
    split at hr
    · exact absurd hr (by simp)
    · injection hr with hr
      subst hr
      refine ⟨rfl, (mathCeilDiv_bounds _ limit h2).1, (mathCeilDiv_bounds _ limit h2).2, ?_⟩
      simp only [List.length_map, List.length_take]
      have hmin : min limit.toNat
          ((sortRows (characterFieldLe (characterSortField sb)) (sqlSortOrder so)
            (db.filter (characterRowMatches f))).drop (pageOffset page limit).toNat).length
          ≤ limit.toNat := Nat.min_le_left _ _
      omega

/-- A non-banned account row whose timestamps are zero, used as a concrete
witness input. -/
def samplePlainAccount : AccountRow :=
  { login := "user1", accessLevel := 0, lastactive := some 0, lastIP := "ip",
    lastHWID := "hw", lastServerId := 2, ban_expire := 0, email := "e" }

/-- The enrichment of `samplePlainAccount` at clock 1000. -/
def samplePlainEnriched : EnrichedAccount :=
  { login := "user1", accessLevel := 0, lastactive := some 0, lastIP := "ip",
    lastHWID := "hw", lastServerId := 2, ban_expire := 0, email := "e",
    lastactiveDate := none, isBanned := false, banExpireDate := none }

/-- The result `getAccounts` produces on `[samplePlainAccount]` with
`page = 1`, `limit = 10` and no filters. -/
def samplePlainResult : AccountsListResult :=
  { accounts := [samplePlainEnriched],
    pagination := { total := 1, page := 1, limit := 10, totalPages := 1 } }

theorem list_pagination_correct_witness :
    getAccounts [samplePlainAccount] 1000 1 10 {} "login" "asc" = some samplePlainResult ∧
    (samplePlainResult.pagination.total : Int) ≤ 10 * samplePlainResult.pagination.totalPages ∧
    (samplePlainResult.accounts.length : Int) ≤ 10 := by
  have heq : getAccounts [samplePlainAccount] 1000 1 10 {} "login" "asc"
      = some samplePlainResult := by decide
  have h := (list_pagination_correct 1 10 (by omega) (by omega)).1
    [samplePlainAccount] 1000 {} "login" "asc" samplePlainResult heq
  exact ⟨heq, h.2.1, h.2.2.2⟩

/-- A formerly-banned account: `ban_expire` is nonzero but in the past. -/
def sampleExpiredBanAccount : AccountRow :=
  { login := "old", accessLevel := 0, lastactive := some 0, lastIP := "ip",
    lastHWID := "hw", lastServerId := 1, ban_expire := 1, email := "e" }

/-- C3 counterexample: for an account whose `ban_expire` is a nonzero past
timestamp, the `getAccounts` mapping emits `banExpireDate = null` even though
the source field is neither `0` nor absent, refuting "each derived date field
is null exactly when its source Unix-timestamp field is 0 or absent". -/
theorem derived_dates_counterexample :
    (enrichAccountData 2 sampleExpiredBanAccount).banExpireDate = none ∧
    ¬sampleExpiredBanAccount.ban_expire = 0 := by decide

/-- C3 (amended): `createDate`, `deleteDate`, `lastAccessDate` and
`lastactiveDate` are `null` exactly when their source timestamp is `0` or
absent; `banExpireDate`, however, is `null` exactly when the account is not
currently banned (`ban_expire ≤ now`), not when its source is `0`/absent.
Every non-null derived date field is a valid ISO-8601 string (timestamps up
to year 9999, the plain four-digit-year range of `toISOString`). -/
theorem derived_dates_amended (c : CharacterRow) (a : AccountRow) (now : Nat)
    (hc1 : c.createtime ≤ 253402300799) (hc2 : c.deletetime ≤ 253402300799)
    (hc3 : c.lastAccess ≤ 253402300799)
    (ha1 : ∀ t, a.lastactive = some t → t ≤ 253402300799)
    (ha2 : a.ban_expire ≤ 253402300799) :
    ((enrichCharacterData c).createDate = none ↔ c.createtime = 0) ∧
    ((enrichCharacterData c).deleteDate = none ↔ c.deletetime = 0) ∧
    ((enrichCharacterData c).lastAccessDate = none ↔ c.lastAccess = 0) ∧
    ((enrichAccountData now a).lastactiveDate = none ↔
      (a.lastactive = none ∨ a.lastactive = some 0)) ∧
    ((enrichAccountData now a).banExpireDate = none ↔ ¬now < a.ban_expire) ∧
    (∀ s, (enrichCharacterData c).createDate = some s → isValidISO8601UTC s = true) ∧
    (∀ s, (enrichCharacterData c).deleteDate = some s → isValidISO8601UTC s = true) ∧
    (∀ s, (enrichCharacterData c).lastAccessDate = some s → isValidISO8601UTC s = true) ∧
    (∀ s, (enrichAccountData now a).lastactiveDate = some s → isValidISO8601UTC s = true) ∧
    (∀ s, (enrichAccountData now a).banExpireDate = some s → isValidISO8601UTC s = true) := by
  refine ⟨?_, ?_, ?_, ?_, ?_, ?_, ?_, ?_, ?_, ?_⟩
  · by_cases h : c.createtime = 0 <;> simp [enrichCharacterData, h]
  · by_cases h : c.deletetime = 0 <;>
      simp [enrichCharacterData, h, Nat.pos_of_ne_zero]
  · by_cases h : c.lastAccess = 0 <;> simp [enrichCharacterData, h]
  · rcases hl : a.lastactive with _ | t
    · simp [enrichAccountData, hl]
    · by_cases h : t = 0 <;> simp [enrichAccountData, hl, h]
  · by_cases h : now < a.ban_expire <;> simp [enrichAccountData, h]
  · intro s hs
    by_cases h : c.createtime = 0
    · simp [enrichCharacterData, h] at hs
    · simp [enrichCharacterData, h] at hs
      rw [← hs]
      exact jsToISOString_valid hc1
  · intro s hs
    by_cases h : c.deletetime = 0
    · simp [enrichCharacterData, h] at hs
    · simp [enrichCharacterData, h, Nat.pos_of_ne_zero h] at hs
      rw [← hs]
      exact jsToISOString_valid hc2
  · intro s hs
    by_cases h : c.lastAccess = 0
    · simp [enrichCharacterData, h] at hs
    · simp [enrichCharacterData, h] at hs
      rw [← hs]
      exact jsToISOString_valid hc3
  · intro s hs
    rcases hl : a.lastactive with _ | t
    · simp [enrichAccountData, hl] at hs
    · by_cases h : t = 0
      · simp [enrichAccountData, hl, h] at hs
      · simp [enrichAccountData, hl, h] at hs
        rw [← hs]
        exact jsToISOString_valid (ha1 t hl)
  · intro s hs
    by_cases h : now < a.ban_expire
    · simp [enrichAccountData, h] at hs
      rw [← hs]
      exact jsToISOString_valid ha2
    · simp [enrichAccountData, h] at hs

theorem derived_dates_amended_witness :
    (enrichCharacterData sampleLiveChar).createDate = some "2017-07-14T02:40:00.000Z" ∧
    isValidISO8601UTC "2017-07-14T02:40:00.000Z" = true ∧
    (enrichAccountData 1000 sampleBannedAccount).banExpireDate
      = some "2030-01-01T00:00:00.000Z" ∧
    isValidISO8601UTC "2030-01-01T00:00:00.000Z" = true := by
  have h := derived_dates_amended sampleLiveChar sampleBannedAccount 1000
    (by decide) (by decide) (by decide)
    (by intro t ht; simp [sampleBannedAccount] at ht; omega) (by decide)
  have e1 : (enrichCharacterData sampleLiveChar).createDate
      = some "2017-07-14T02:40:00.000Z" := by decide
  have e2 : (enrichAccountData 1000 sampleBannedAccount).banExpireDate
      = some "2030-01-01T00:00:00.000Z" := by decide
  exact ⟨e1, h.2.2.2.2.2.1 _ e1, e2, h.2.2.2.2.2.2.2.2.2 _ e2⟩

/-- The canonical `YYYY-MM-DD` rendering of a date. -/
def dateString (y m d : Nat) : String := pad4 y ++ "-" ++ pad2 m ++ "-" ++ pad2 d

theorem monthLens_sum (b : Bool) : (monthLens b).sum = if b then 366 else 365 := by
  cases b <;> decide

theorem doy_lt_daysInYear : ∀ (b : Bool) (m : Nat), m < 13 → 1 ≤ m → ∀ d : Nat, d < 32 →
    1 ≤ d → d ≤ (monthLens b).getD (m - 1) 0 →
    monthDaysBefore b m + (d - 1) < (monthLens b).sum := by
  decide

theorem monthFromDoy_of_date_fst : ∀ (b : Bool) (m : Nat), m < 13 → 1 ≤ m → ∀ d : Nat,
    d < 32 → 1 ≤ d → d ≤ (monthLens b).getD (m - 1) 0 →
    (monthFromDoy (monthLens b) 1 (monthDaysBefore b m + (d - 1))).1 = m := by
  decide

theorem monthFromDoy_of_date_snd : ∀ (b : Bool) (m : Nat), m < 13 → 1 ≤ m → ∀ d : Nat,
    d < 32 → 1 ≤ d → d ≤ (monthLens b).getD (m - 1) 0 →
    (monthFromDoy (monthLens b) 1 (monthDaysBefore b m + (d - 1))).2 = d - 1 := by
  decide

theorem yearDoy_unique {y1 y2 d1 d2 : Nat}
    (h : daysSinceYear0 y1 + d1 = daysSinceYear0 y2 + d2)
    (h1 : d1 < daysInYear y1) (h2 : d2 < daysInYear y2) : y1 = y2 ∧ d1 = d2 := by
  rcases Nat.lt_trichotomy y1 y2 with hlt | heq | hgt
  · have hs : daysSinceYear0 (y1 + 1) ≤ daysSinceYear0 y2 := daysSinceYear0_mono (by omega)
    have hstep := daysSinceYear0_succ y1
    omega
  · subst heq
    omega
  · have hs : daysSinceYear0 (y2 + 1) ≤ daysSinceYear0 y1 := daysSinceYear0_mono (by omega)
    have hstep := daysSinceYear0_succ y2
    omega

theorem dateShapeParts_dateString (y m d : Nat) (hy : y ≤ 9999) (hm : m ≤ 99) (hd : d ≤ 99) :
    dateShapeParts (dateString y m d) = some (y, m, d) := by
  show dateShapeParts ⟨[digitChar (y / 1000), digitChar (y / 100), digitChar (y / 10),
    digitChar y, '-', digitChar (m / 10), digitChar m, '-', digitChar (d / 10), digitChar d]⟩
    = some (y, m, d)
  simp only [dateShapeParts, digitChar_isDigit, digitVal_digitChar, Bool.and_eq_true,
    beq_self_eq_true, and_true, true_and, if_true, Option.some.injEq, Prod.mk.injEq]
  refine ⟨by omega, by omega, by omega⟩

theorem daysInMonth_le (y m : Nat) : daysInMonth y m ≤ 31 := by
  unfold daysInMonth
  by_cases h : m - 1 < 12
  · have hb : ∀ (b : Bool), ∀ i < 12, (monthLens b).getD i 0 ≤ 31 := by decide
    exact hb _ _ h
  · rw [List.getD_eq_default]
    · omega
    · cases isLeap y <;> simp [monthLens] <;> omega

theorem epochDaysOfDate_eq (y m d : Nat) (hy1 : 1970 ≤ y) (hd1 : 1 ≤ d) :
    epochDaysOfDate y m d
      = ((daysSinceYear0 y + monthDaysBefore (isLeap y) m + (d - 1) - 719528 : Nat) : Int) := by
  have hmono := daysSinceYear0_mono hy1
  have h1970 : daysSinceYear0 1970 = 719528 := by norm_num [daysSinceYear0]
  unfold epochDaysOfDate
  omega

theorem jsToISOString_of_date (y m d : Nat) (hy1 : 1970 ≤ y) (hy2 : y ≤ 9999)
    (hm1 : 1 ≤ m) (hm2 : m ≤ 12) (hd1 : 1 ≤ d) (hd2 : d ≤ daysInMonth y m) :
    jsToISOString (86400 * (daysSinceYear0 y + monthDaysBefore (isLeap y) m + (d - 1) - 719528))
      = dateString y m d ++ "T00:00:00.000Z" := by
  have h1970 : daysSinceYear0 1970 = 719528 := by norm_num [daysSinceYear0]
  have hd31 : d ≤ 31 := Nat.le_trans hd2 (daysInMonth_le y m)
  have hmono := daysSinceYear0_mono hy1
  have hdiv : 86400 * (daysSinceYear0 y + monthDaysBefore (isLeap y) m + (d - 1) - 719528)
      / 86400 = daysSinceYear0 y + monthDaysBefore (isLeap y) m + (d - 1) - 719528 :=
    Nat.mul_div_cancel_left _ (by norm_num)
  have hmod : 86400 * (daysSinceYear0 y + monthDaysBefore (isLeap y) m + (d - 1) - 719528)
      % 86400 = 0 := Nat.mul_mod_right 86400 _
  have hdoy : monthDaysBefore (isLeap y) m + (d - 1) < daysInYear y := by
    have hs := doy_lt_daysInYear (isLeap y) m (by omega) hm1 d (by omega) hd1 hd2
    rw [monthLens_sum] at hs
    simpa [daysInYear] using hs
  have hspec := yearFromDays_spec
    (daysSinceYear0 y + monthDaysBefore (isLeap y) m + (d - 1) - 719528) 1970
  have huniq := yearDoy_unique
    (show daysSinceYear0 (yearFromDays 1970
        (daysSinceYear0 y + monthDaysBefore (isLeap y) m + (d - 1) - 719528)).1 +
      (yearFromDays 1970
        (daysSinceYear0 y + monthDaysBefore (isLeap y) m + (d - 1) - 719528)).2
      = daysSinceYear0 y + (monthDaysBefore (isLeap y) m + (d - 1)) by omega)
    hspec.2.2 hdoy
  have hmd1 := monthFromDoy_of_date_fst (isLeap y) m (by omega) hm1 d (by omega) hd1 hd2
  have hmd2 := monthFromDoy_of_date_snd (isLeap y) m (by omega) hm1 d (by omega) hd1 hd2
  simp only [jsToISOString]
  rw [hdiv, hmod, huniq.1, huniq.2, hmd1, hmd2]
  obtain ⟨d', rfl⟩ : ∃ d', d = d' + 1 := ⟨d - 1, by omega⟩
  simp only [Nat.add_sub_cancel]
  rfl

/-- C6 counterexample: `"2023-13-01"` matches the `YYYY-MM-DD` shape but is
not a real calendar date, so `new Date(...)` is `Invalid Date` and
`parseTimestamp` returns `NaN` — neither `null` nor an integer timestamp —
refuting the claim as stated (the caller still drops the filter, since `NaN`
is falsy). -/
theorem parseTimestamp_counterexample :
    parseTimestamp "2023-13-01" = some JsNum.nan ∧
    ¬parseTimestamp "2023-13-01" = none ∧
    ∀ n : Int, ¬parseTimestamp "2023-13-01" = some (JsNum.int n) := by
  refine ⟨by decide, by decide, ?_⟩
  intro n h
  rw [show parseTimestamp "2023-13-01" = some JsNum.nan from by decide] at h
  simp at h

/-- C6 (amended): `parseTimestamp` maps the empty (falsy) input to `null`; a
`YYYY-MM-DD`-shaped string denoting a real calendar date to the Unix-seconds
timestamp of midnight UTC of that date (witnessed by rendering the timestamp
back through the model of `toISOString`); a shape-matching string that is not
a real date to `NaN` (not `null` — the caller still drops it by truthiness);
any other non-empty string with a parseable leading integer to its base-10
`parseInt` value; and any other unparseable value to `null`. -/
theorem parseTimestamp_amended :
    (parseTimestamp "" = none) ∧
    (∀ (y m d : Nat), 1970 ≤ y → y ≤ 9999 → isRealDate y m d = true →
      parseTimestamp (dateString y m d)
          = some (JsNum.int (86400 * epochDaysOfDate y m d)) ∧
      jsToISOString (86400 * epochDaysOfDate y m d).toNat
          = dateString y m d ++ "T00:00:00.000Z") ∧
    (∀ (s : String) (y m d : Nat), dateShapeParts s = some (y, m, d) →
      ¬isRealDate y m d = true → parseTimestamp s = some JsNum.nan) ∧
    (∀ (s : String) (n : Int), dateShapeParts s = none → jsParseInt s = JsNum.int n →
      ¬s = "" → parseTimestamp s = some (JsNum.int n)) ∧
    (∀ s : String, dateShapeParts s = none → jsParseInt s = JsNum.nan →
      parseTimestamp s = none) := by
  refine ⟨rfl, ?_, ?_, ?_, ?_⟩
  · intro y m d hy1 hy2 hreal
    have hcond : ((1 ≤ m ∧ m ≤ 12) ∧ 1 ≤ d) ∧ d ≤ daysInMonth y m := by
      simpa [isRealDate, Bool.and_eq_true, decide_eq_true_eq] using hreal
    obtain ⟨⟨⟨hm1, hm2⟩, hd1⟩, hd2⟩ := hcond
    have hshape := dateShapeParts_dateString y m d hy2 (by omega)
      (by have := daysInMonth_le y m; omega)
    have hne : ¬dateString y m d = "" := by
      intro h
      rw [h] at hshape
      simp [dateShapeParts] at hshape
    have hEq := epochDaysOfDate_eq y m d hy1 hd1
    constructor
    · have hred : parseTimestamp (dateString y m d)
          = if isRealDate y m d then some (JsNum.int (86400 * epochDaysOfDate y m d))
            else some JsNum.nan := by
        unfold parseTimestamp
        rw [if_neg hne, hshape]
      rw [hred, if_pos hreal]
    · rw [hEq]
      have htn : ((86400 : Int) *
          ((daysSinceYear0 y + monthDaysBefore (isLeap y) m + (d - 1) - 719528 : Nat) : Int)).toNat
          = 86400 * (daysSinceYear0 y + monthDaysBefore (isLeap y) m + (d - 1) - 719528) := by
        omega
      rw [htn]
      exact jsToISOString_of_date y m d hy1 hy2 hm1 hm2 hd1 hd2
  · intro s y m d hsh hreal
    have hne : ¬s = "" := by
      intro h
      rw [h] at hsh
      simp [dateShapeParts] at hsh
    have hred : parseTimestamp s
        = if isRealDate y m d then some (JsNum.int (86400 * epochDaysOfDate y m d))
          else some JsNum.nan := by
      unfold parseTimestamp
      rw [if_neg hne, hsh]
    rw [hred, if_neg hreal]
  · intro s n hsh hpi hne
    unfold parseTimestamp
    rw [if_neg hne, hsh, hpi]
  · intro s hsh hpi
    by_cases h : s = ""
    · subst h
      rfl
    · unfold parseTimestamp
      rw [if_neg h, hsh, hpi]

theorem parseTimestamp_amended_witness :
    parseTimestamp "2023-04-09" = some (JsNum.int 1680998400) ∧
    jsToISOString 1680998400 = "2023-04-09T00:00:00.000Z" ∧
    parseTimestamp "1234abc" = some (JsNum.int 1234) ∧
    parseTimestamp "abc" = none := by
  have h := parseTimestamp_amended.2.1 2023 4 9 (by omega) (by omega) (by decide)
  have e1 : dateString 2023 4 9 = "2023-04-09" := by decide
  have e2 : 86400 * epochDaysOfDate 2023 4 9 = (1680998400 : Int) := by decide
  have e3 : (86400 * epochDaysOfDate 2023 4 9).toNat = 1680998400 := by decide
  have h1 := h.1
  have h2 := h.2
  rw [e1, e2] at h1
  rw [e3, e1] at h2
  refine ⟨h1, by rw [h2]; decide, ?_, ?_⟩
  · exact parseTimestamp_amended.2.2.2.1 "1234abc" 1234 (by decide) (by decide) (by decide)
  · exact parseTimestamp_amended.2.2.2.2 "abc" (by decide) (by decide)

/-- C7 counterexample: a non-numeric `page` query value is passed through as
`NaN` rather than coerced to the default `1`, and the numeric value `"0"` is
used as-is, making the offset `(page-1)*limit` negative. -/
theorem pagination_coercion_counterexample :
    routeIntParam (some "abc") 1 = JsNum.nan ∧
    ¬routeIntParam (some "abc") 1 = JsNum.int 1 ∧
    routeIntParam (some "0") 1 = JsNum.int 0 ∧
    pageOffset 0 10 = -10 ∧
    ¬(0 : Int) ≤ pageOffset 0 10 := by decide

/-- C7 (amended): `page` and `limit` default to `1` and `10` only when the
raw query value is absent or empty (falsy); any other value is
`parseInt`-parsed and used as-is, so non-numeric input yields `NaN` and zero
or negative numerals are passed through; the offset `(page-1)*limit` is
nonnegative whenever the parsed page and limit are at least 1. -/
theorem pagination_coercion_amended :
    (∀ d : Nat, routeIntParam none d = JsNum.int d ∧ routeIntParam (some "") d = JsNum.int d) ∧
    (∀ (d : Nat) (s : String), ¬s = "" → routeIntParam (some s) d = jsParseInt s) ∧
    (∀ page limit : Int, 1 ≤ page → 1 ≤ limit → 0 ≤ pageOffset page limit) := by
  refine ⟨fun d => ⟨rfl, rfl⟩, ?_, ?_⟩
  · intro d s h
    simp [routeIntParam, h]
  · intro page limit h1 h2
    unfold pageOffset
    have hp : (0 : Int) ≤ page - 1 := by omega
    exact mul_nonneg hp (by omega)

theorem pagination_coercion_amended_witness :
    routeIntParam (some "7") 1 = JsNum.int 7 ∧ (0 : Int) ≤ pageOffset 3 10 := by
  constructor
  · rw [pagination_coercion_amended.2.1 1 "7" (by decide)]
    decide
  · exact pagination_coercion_amended.2.2 3 10 (by omega) (by omega)
